import Mathlib

/-!
Shallow embedding of `src/openclose.c` from ROCT-Thunk-Interface: the KFD
session lifecycle manager (`hsaKmtOpenKFD` / `hsaKmtCloseKFD`), fork
detection (`is_forked_child`, `child_fork_handler`, `clear_after_fork`) and
environment-derived configuration (`init_vars_from_env`).

External collaborators (device open/close syscalls, topology query, the
subsystem init/teardown functions) are modelled as oracles supplied per
call (`Ext`) plus an event trace recording every collaborator invocation in
program order.  The file-scope C globals become the fields of `KState`.
Machine integers are modelled as `Int`/`Nat`; the `%u` conversions of
`sscanf` store their value reduced mod 2^32 as a 32-bit store would.
-/

namespace ROCT

/-- Result statuses of `hsakmttypes.h` used by `openclose.c`. -/
inductive HSAKMT_STATUS where
  | SUCCESS
  | ERROR
  | KERNEL_IO_CHANNEL_NOT_OPENED
  | KERNEL_ALREADY_OPENED
deriving DecidableEq, Repr

/-- One collaborator invocation, in program order.  `dev_open fd` records the
`open("/dev/kfd")` syscall together with the file descriptor it returned
(`-1` on failure); `dev_close` records a `close(fd)` syscall. -/
inductive Event where
  | clear_process_doorbells
  | clear_events_page
  | fmm_clear_all_mem
  | destroy_device_debugging_memory
  | dev_close
  | init_vars_from_env
  | dev_open (fd : Int)
  | init_page_size
  | topology_query
  | fmm_init_process_apertures (n : Nat)
  | init_process_doorbells (n : Nat)
  | init_device_debugging_memory (n : Nat)
  | init_counter_props (n : Nat)
  | destroy_counter_props
  | destroy_process_doorbells
  | fmm_destroy_process_apertures
deriving DecidableEq, Repr

/-- The four registry subsystems driven by the open/close chain. -/
inductive Stage where
  | apertures
  | doorbells
  | debugmem
  | counters
deriving DecidableEq, Repr

/-- The subsystem an init event initializes, if any. -/
def initStage : Event → Option Stage
  | .fmm_init_process_apertures _ => some .apertures
  | .init_process_doorbells _ => some .doorbells
  | .init_device_debugging_memory _ => some .debugmem
  | .init_counter_props _ => some .counters
  | _ => none

/-- The subsystem a teardown event tears down, if any. -/
def teardownStage : Event → Option Stage
  | .fmm_destroy_process_apertures => some .apertures
  | .destroy_process_doorbells => some .doorbells
  | .destroy_device_debugging_memory => some .debugmem
  | .destroy_counter_props => some .counters
  | _ => none

/-- Whether the single underlying device connection is physically open after
the given trace: the last device syscall was a successful `open`. -/
def devPhysOpen (evs : List Event) : Bool :=
  evs.foldl
    (fun b e =>
      match e with
      | .dev_open fd => if fd = -1 then b else true
      | .dev_close => false
      | _ => b) false

/-- Number of successful `open("/dev/kfd")` syscalls in a trace. -/
def countDevOpens (evs : List Event) : Nat :=
  (evs.filter (fun e =>
    match e with
    | .dev_open fd => fd != -1
    | _ => false)).length

/-- Number of `close(fd)` syscalls in a trace. -/
def countDevCloses (evs : List Event) : Nat :=
  (evs.filter (fun e =>
    match e with
    | .dev_close => true
    | _ => false)).length

/-! ### Configuration (`init_vars_from_env`) -/

/-- The environment variables `init_vars_from_env` reads
(`getenv` results; `none` means the variable is unset). -/
structure Env where
  debug_level : Option String
  hsa_zfb : Option String
  force_asic_type : Option String
deriving DecidableEq, Repr

/-- The forced-identity record `force_asic_entry` (fields written by
`init_vars_from_env` on a successful `HSA_FORCE_ASIC_TYPE` parse). -/
structure ForceAsicEntry where
  major : Nat
  minor : Nat
  stepping : Nat
  is_dgpu : Nat
  asic_family : Nat
deriving DecidableEq, Repr

/-- The configuration globals touched by `init_vars_from_env`:
`hsakmt_debug_level`, `zfb_support`, the `force_asic_name` buffer, the
`force_asic_entry` record and the `force_asic` flag. -/
structure Config where
  hsakmt_debug_level : Int
  zfb_support : Int
  force_asic_name : String
  force_asic_entry : ForceAsicEntry
  force_asic : Nat
deriving DecidableEq, Repr

/-- Modelled from the spec: the debug-verbosity bounds come from a header
outside `src/` ("a debug-verbosity level bounded to a fixed small
enumeration"); the kernel-style levels 3..7 with default -1 are used. -/
def HSAKMT_DEBUG_LEVEL_DEFAULT : Int := -1

/-- Modelled from the spec: lower bound of the debug-verbosity enumeration. -/
def HSAKMT_DEBUG_LEVEL_ERR : Int := 3

/-- Modelled from the spec: upper bound of the debug-verbosity enumeration. -/
def HSAKMT_DEBUG_LEVEL_DEBUG : Int := 7

/-- C `isspace` characters. -/
def isSpaceChar (c : Char) : Bool :=
  c = ' ' || c = '\t' || c = '\n' || c = '\x0b' || c = '\x0c' || c = '\r'

/-- Drop leading whitespace, as the `%u`/`%s` conversions and literal blanks
of a `scanf` format do. -/
def dropWS (s : List Char) : List Char := s.dropWhile isSpaceChar

/-- Value of a decimal digit string. -/
def natOfDigits (ds : List Char) : Nat :=
  ds.foldl (fun a c => a * 10 + (c.toNat - 48)) 0

/-- C `atoi`: skip whitespace, optional sign, then leading digits (0 when
there are none). -/
def atoi (s : String) : Int :=
  match dropWS s.data with
  | '-' :: rest => - (natOfDigits (rest.takeWhile Char.isDigit) : Int)
  | '+' :: rest => (natOfDigits (rest.takeWhile Char.isDigit) : Int)
  | t => (natOfDigits (t.takeWhile Char.isDigit) : Int)

/-- One `%u` conversion: skip whitespace, require at least one digit, store
the value as a 32-bit unsigned store would. -/
def scanU (s : List Char) : Option (Nat × List Char) :=
  let t := dropWS s
  let ds := t.takeWhile Char.isDigit
  if ds.isEmpty then none
  else some (natOfDigits ds % 2 ^ 32, t.dropWhile Char.isDigit)

/-- A literal (non-blank) format character: must match the next input
character exactly. -/
def scanLit (c : Char) : List Char → Option (List Char)
  | d :: rest => if d = c then some rest else none
  | [] => none

/-- One `%63s` conversion: skip whitespace, then read up to 63 non-whitespace
characters (at least one). -/
def scanStr63 (s : List Char) : Option (String × List Char) :=
  let t := dropWS s
  let w := (t.takeWhile (fun c => !isSpaceChar c)).take 63
  if w.isEmpty then none
  else some (⟨w⟩, t.drop w.length)

/-- Outcome of `sscanf(envvar, "%u.%u.%u %u %63s %u", ...)`: how many
conversions were assigned, the numeric values assigned so far, and the
string assigned to the `force_asic_name` buffer when the fifth conversion
succeeded (the buffer is a global, so this write persists even when the
overall parse fails). -/
structure AsicScan where
  nmatched : Nat
  major : Nat := 0
  minor : Nat := 0
  step : Nat := 0
  dgpu : Nat := 0
  name : Option String := none
  family : Nat := 0
deriving DecidableEq, Repr

/-- `sscanf(input, "%u.%u.%u %u %63s %u", &major, &minor, &step, &dgpu,
force_asic_name, &asic_family)`, conversion by conversion, stopping at the
first matching failure. -/
def scanForceAsic (input : String) : AsicScan :=
  match scanU input.data with
  | none => { nmatched := 0 }
  | some (ma, s1) =>
    match scanLit '.' s1 with
    | none => { nmatched := 1, major := ma }
    | some s2 =>
      match scanU s2 with
      | none => { nmatched := 1, major := ma }
      | some (mi, s3) =>
        match scanLit '.' s3 with
        | none => { nmatched := 2, major := ma, minor := mi }
        | some s4 =>
          match scanU s4 with
          | none => { nmatched := 2, major := ma, minor := mi }
          | some (st, s5) =>
            match scanU s5 with
            | none => { nmatched := 3, major := ma, minor := mi, step := st }
            | some (dg, s6) =>
              match scanStr63 s6 with
              | none =>
                { nmatched := 4, major := ma, minor := mi, step := st, dgpu := dg }
              | some (nm, s7) =>
                match scanU s7 with
                | none =>
                  { nmatched := 5, major := ma, minor := mi, step := st,
                    dgpu := dg, name := some nm }
                | some (fam, _) =>
                  { nmatched := 6, major := ma, minor := mi, step := st,
                    dgpu := dg, name := some nm, family := fam }

/-- `init_vars_from_env` from `openclose.c`.  `chipLast` is the value of the
`CHIP_LAST` enumerator, declared in a header outside `src/`, passed here as
a parameter. -/
def init_vars_from_env (chipLast : Nat) (env : Env) (cfg : Config) :
    HSAKMT_STATUS × Config :=
  let cfg := { cfg with hsakmt_debug_level := HSAKMT_DEBUG_LEVEL_DEFAULT }
  let cfg :=
    match env.debug_level with
    | some s =>
      let d := atoi s
      if HSAKMT_DEBUG_LEVEL_ERR ≤ d ∧ d ≤ HSAKMT_DEBUG_LEVEL_DEBUG then
        { cfg with hsakmt_debug_level := d }
      else cfg
    | none => cfg
  let cfg :=
    match env.hsa_zfb with
    | some s => { cfg with zfb_support := atoi s }
    | none => cfg
  match env.force_asic_type with
  | none => (.SUCCESS, cfg)
  | some s =>
    let r := scanForceAsic s
    let cfg :=
      match r.name with
      | some nm => { cfg with force_asic_name := nm }
      | none => cfg
    if r.nmatched ≠ 6 ∨ 63 < r.major ∨ 255 < r.minor ∨ 255 < r.step ∨
        1 < r.dgpu ∨ chipLast ≤ r.family then
      (.ERROR, cfg)
    else
      (.SUCCESS,
        { cfg with
          force_asic_entry :=
            { major := r.major, minor := r.minor, stepping := r.step,
              is_dgpu := r.dgpu, asic_family := r.family },
          force_asic := 1 })

/-! ### Session state and lifecycle -/

/-- The file-scope globals of `openclose.c` (and of the headers it mutates):
`parent_pid` (-1 = unset), `hsakmt_forked`, `kfd_fd` (0 = no descriptor
recorded), `kfd_open_count`, the function-static `atfork_installed` latch,
and the configuration globals. -/
structure KState where
  parent_pid : Int
  hsakmt_forked : Bool
  kfd_fd : Int
  kfd_open_count : Int
  atfork_installed : Bool
  cfg : Config
deriving DecidableEq, Repr

/-- The per-call external world: `getpid()`, the environment, the result of
`open("/dev/kfd")` (`-1` = failure), and the statuses returned by the
collaborators.  `counters_status` is the result of `init_counter_props`,
which the call site discards. -/
structure Ext where
  cur_pid : Int
  env : Env
  dev_fd : Int
  topo_status : HSAKMT_STATUS
  numNodes : Nat
  fmm_status : HSAKMT_STATUS
  doorbells_status : HSAKMT_STATUS
  debug_status : HSAKMT_STATUS
  counters_status : HSAKMT_STATUS
deriving DecidableEq, Repr

/-- `is_forked_child` from `openclose.c`: latch on `hsakmt_forked`, record
the pid on first call, detect a pid mismatch afterwards. -/
def is_forked_child (cur_pid : Int) (s : KState) : Bool × KState :=
  if s.hsakmt_forked then (true, s)
  else if s.parent_pid = -1 then (false, { s with parent_pid := cur_pid })
  else if s.parent_pid ≠ cur_pid then (true, { s with hsakmt_forked := true })
  else (false, s)

/-- `clear_after_fork` from `openclose.c`: best-effort teardown of all
duplicated state, close of the locally recorded descriptor, and reset of
the refcount, the recorded pid and the forked flag. -/
def clear_after_fork (s : KState) : KState × List Event :=
  let evs : List Event :=
    [.clear_process_doorbells, .clear_events_page, .fmm_clear_all_mem,
     .destroy_device_debugging_memory]
  let (s, evs) :=
    if s.kfd_fd ≠ 0 then ({ s with kfd_fd := 0 }, evs ++ [Event.dev_close])
    else (s, evs)
  ({ s with kfd_open_count := 0, parent_pid := -1, hsakmt_forked := false }, evs)

/-- The `kfd_open_count == 0` branch of `hsaKmtOpenKFD`: configuration
load, device open, `kfd_fd`/`kfd_open_count` assignment, topology query,
the ordered subsystem init chain, and the `goto` rollback labels as the
event suffixes of the failure branches.  A failed
`init_device_debugging_memory` only prints a warning in the source and
otherwise has no effect, so its status (`ext.debug_status`) is not
consulted; the return value of `init_counter_props` is discarded at the
call site.  The failure labels close `fd` but do not reset `kfd_fd` or
`kfd_open_count`, exactly as in the source. -/
def openFirstPath (chipLast : Nat) (ext : Ext) (s : KState) :
    HSAKMT_STATUS × KState × List Event :=
  let (r, cfg) := init_vars_from_env chipLast ext.env s.cfg
  let s := { s with cfg := cfg }
  let evs := [Event.init_vars_from_env]
  if r ≠ .SUCCESS then (r, s, evs)
  else
    let fd := ext.dev_fd
    let evs := evs ++ [Event.dev_open fd]
    if fd = -1 then (.KERNEL_IO_CHANNEL_NOT_OPENED, s, evs)
    else
      let s := { s with kfd_fd := fd, kfd_open_count := 1 }
      let evs := evs ++ [Event.init_page_size, Event.topology_query]
      if ext.topo_status ≠ .SUCCESS then
        (ext.topo_status, s, evs ++ [Event.dev_close])
      else
        let n := ext.numNodes
        let evs := evs ++ [Event.fmm_init_process_apertures n]
        if ext.fmm_status ≠ .SUCCESS then
          (ext.fmm_status, s, evs ++ [Event.dev_close])
        else
          let evs := evs ++ [Event.init_process_doorbells n]
          if ext.doorbells_status ≠ .SUCCESS then
            (ext.doorbells_status, s,
             evs ++ [Event.fmm_destroy_process_apertures, Event.dev_close])
          else
            let evs := evs ++ [Event.init_device_debugging_memory n,
                               Event.init_counter_props n]
            let s :=
              if ¬ s.atfork_installed then { s with atfork_installed := true }
              else s
            (.SUCCESS, s, evs)

/-- `hsaKmtOpenKFD` from `openclose.c`: fork check and recovery, then
either the full first-open path (`kfd_open_count == 0`) or the refcount
increment returning `KERNEL_ALREADY_OPENED`. -/
def hsaKmtOpenKFD (chipLast : Nat) (ext : Ext) (s : KState) :
    HSAKMT_STATUS × KState × List Event :=
  let (forked, s) := is_forked_child ext.cur_pid s
  let (s, evs0) := if forked then clear_after_fork s else (s, [])
  if s.kfd_open_count = 0 then
    let r := openFirstPath chipLast ext s
    (r.1, r.2.1, evs0 ++ r.2.2)
  else
    (.KERNEL_ALREADY_OPENED,
     { s with kfd_open_count := s.kfd_open_count + 1 }, evs0)

/-- `hsaKmtCloseKFD` from `openclose.c`. -/
def hsaKmtCloseKFD (s : KState) : HSAKMT_STATUS × KState × List Event :=
  if 0 < s.kfd_open_count then
    let s := { s with kfd_open_count := s.kfd_open_count - 1 }
    if s.kfd_open_count = 0 then
      let evs : List Event :=
        [.destroy_counter_props, .destroy_device_debugging_memory,
         .destroy_process_doorbells, .fmm_destroy_process_apertures]
      if s.kfd_fd ≠ 0 then
        (.SUCCESS, { s with kfd_fd := 0 }, evs ++ [Event.dev_close])
      else (.SUCCESS, s, evs)
    else (.SUCCESS, s, [])
  else (.KERNEL_IO_CHANNEL_NOT_OPENED, s, [])

/-- An operation a client (or the fork machinery) can perform on the
session.  `child_fork` is the post-fork child callback
`child_fork_handler`, which exists only once `pthread_atfork` has been
installed and sets the forked flag. -/
inductive Op where
  | openKFD (ext : Ext)
  | closeKFD
  | child_fork
deriving Repr

/-- One operation applied to the session state, with its event trace. -/
def step (chipLast : Nat) (s : KState) : Op → KState × List Event
  | .openKFD ext =>
    let r := hsaKmtOpenKFD chipLast ext s
    (r.2.1, r.2.2)
  | .closeKFD =>
    let r := hsaKmtCloseKFD s
    (r.2.1, r.2.2)
  | .child_fork =>
    (if s.atfork_installed then { s with hsakmt_forked := true } else s, [])

/-- A sequence of operations, with the concatenated event trace. -/
def run (chipLast : Nat) (s : KState) : List Op → KState × List Event
  | [] => (s, [])
  | op :: ops =>
    let (s1, e1) := step chipLast s op
    let (s2, e2) := run chipLast s1 ops
    (s2, e1 ++ e2)

/-- C zero-initialization of the configuration globals. -/
def initConfig : Config :=
  { hsakmt_debug_level := 0, zfb_support := 0, force_asic_name := "",
    force_asic_entry := ⟨0, 0, 0, 0, 0⟩, force_asic := 0 }

/-- Process start: `parent_pid = -1`, everything else zero-initialized. -/
def initState : KState :=
  { parent_pid := -1, hsakmt_forked := false, kfd_fd := 0,
    kfd_open_count := 0, atfork_installed := false, cfg := initConfig }

/-- An environment with none of the three variables set. -/
def envNone : Env := { debug_level := none, hsa_zfb := none, force_asic_type := none }

/-- An environment setting only `HSA_FORCE_ASIC_TYPE`. -/
def envForce (v : String) : Env :=
  { debug_level := none, hsa_zfb := none, force_asic_type := some v }

/-- An external world in which the device open and every collaborator
succeed. -/
def goodExt (pid fd : Int) (n : Nat) : Ext :=
  { cur_pid := pid, env := envNone, dev_fd := fd, topo_status := .SUCCESS,
    numNodes := n, fmm_status := .SUCCESS, doorbells_status := .SUCCESS,
    debug_status := .SUCCESS, counters_status := .SUCCESS }

/-- The event trace of a successful first open. -/
def firstOpenEvents (fd : Int) (n : Nat) : List Event :=
  [.init_vars_from_env, .dev_open fd, .init_page_size, .topology_query,
   .fmm_init_process_apertures n, .init_process_doorbells n,
   .init_device_debugging_memory n, .init_counter_props n]

/-- The event trace of `clear_after_fork` when the pre-fork descriptor
field held `oldfd`. -/
def clearEvents (oldfd : Int) : List Event :=
  [.clear_process_doorbells, .clear_events_page, .fmm_clear_all_mem,
   .destroy_device_debugging_memory] ++ (if oldfd ≠ 0 then [Event.dev_close] else [])

/-- The declared init order of the subsystem registry. -/
def initChainOrder : List Stage := [.apertures, .doorbells, .debugmem, .counters]

/-- The event trace of the close that drops `kfd_open_count` to zero. -/
def lastCloseEvents : List Event :=
  [.destroy_counter_props, .destroy_device_debugging_memory,
   .destroy_process_doorbells, .fmm_destroy_process_apertures, .dev_close]

/-- An external world whose only failure is the doorbell init stage. -/
def extDoorbellFail : Ext := { goodExt 7 3 2 with doorbells_status := .ERROR }

/-- An external world whose only failure is the topology query. -/
def extTopoFail : Ext := { goodExt 7 3 2 with topo_status := .ERROR }

/-- A prior configuration holding a previously stored asic name. -/
def cfgOld : Config :=
  { hsakmt_debug_level := -1, zfb_support := 0, force_asic_name := "Old",
    force_asic_entry := ⟨9, 8, 7, 1, 5⟩, force_asic := 1 }

/-! ### Helper lemmas -/

theorem clear_after_fork_eq (s : KState) :
    clear_after_fork s =
      ({ s with kfd_fd := 0, kfd_open_count := 0, parent_pid := -1, hsakmt_forked := false },
       clearEvents s.kfd_fd) := by
  obtain ⟨p, f, fd, c, a, cfg⟩ := s
  by_cases h : fd = 0 <;> simp [clear_after_fork, clearEvents, h]

theorem is_forked_child_not_forked (pid : Int) (s : KState)
    (hf : s.hsakmt_forked = false) (hp : s.parent_pid = -1 ∨ s.parent_pid = pid) :
    is_forked_child pid s = (false, { s with parent_pid := pid }) := by
  obtain ⟨p, f, fd, c, a, cfg⟩ := s
  subst hf
  rcases hp with hp | hp <;> subst hp <;> simp [is_forked_child]

theorem open_already_eq (chipLast : Nat) (ext : Ext) (s : KState)
    (hc : 0 < s.kfd_open_count) (hf : s.hsakmt_forked = false)
    (hp : s.parent_pid = ext.cur_pid) :
    hsaKmtOpenKFD chipLast ext s =
      (.KERNEL_ALREADY_OPENED,
       { s with kfd_open_count := s.kfd_open_count + 1 }, []) := by
  have hifc := is_forked_child_not_forked ext.cur_pid s hf (Or.inr hp)
  have hupd : ({ s with parent_pid := ext.cur_pid } : KState) = s := by
    rw [← hp]
  rw [hupd] at hifc
  obtain ⟨p, f, fd, c, a, cfg⟩ := s
  have hc' : (0:Int) < c := hc
  simp [hsaKmtOpenKFD, hifc, show ¬ (c = 0) from by omega]

theorem first_path_eq (chipLast : Nat) (ext : Ext) (s : KState)
    (henv : ext.env = envNone) (hfd : 0 < ext.dev_fd)
    (htopo : ext.topo_status = .SUCCESS) (hfmm : ext.fmm_status = .SUCCESS)
    (hdb : ext.doorbells_status = .SUCCESS) :
    openFirstPath chipLast ext s =
      (.SUCCESS,
       { s with
         kfd_fd := ext.dev_fd
         kfd_open_count := 1
         atfork_installed := true
         cfg := { s.cfg with hsakmt_debug_level := -1 } },
       firstOpenEvents ext.dev_fd ext.numNodes) := by
  have hinit : init_vars_from_env chipLast ext.env s.cfg =
      (.SUCCESS, { s.cfg with hsakmt_debug_level := -1 }) := by
    rw [henv]; rfl
  have hne : ext.dev_fd ≠ -1 := by omega
  obtain ⟨p, f, fd, c, a, cfg⟩ := s
  simp only [openFirstPath, hinit, hne, htopo, hfmm, hdb, firstOpenEvents]
  by_cases ha : a <;> simp [ha]

theorem open_first_eq (chipLast : Nat) (ext : Ext) (s : KState)
    (henv : ext.env = envNone) (hfd : 0 < ext.dev_fd)
    (htopo : ext.topo_status = .SUCCESS) (hfmm : ext.fmm_status = .SUCCESS)
    (hdb : ext.doorbells_status = .SUCCESS)
    (h0 : s.kfd_open_count = 0) (hf : s.hsakmt_forked = false)
    (hp : s.parent_pid = -1 ∨ s.parent_pid = ext.cur_pid) :
    hsaKmtOpenKFD chipLast ext s =
      (.SUCCESS,
       { s with
         parent_pid := ext.cur_pid
         kfd_fd := ext.dev_fd
         kfd_open_count := 1
         atfork_installed := true
         cfg := { s.cfg with hsakmt_debug_level := -1 } },
       firstOpenEvents ext.dev_fd ext.numNodes) := by
  have hifc := is_forked_child_not_forked ext.cur_pid s hf hp
  have hbody := first_path_eq chipLast ext { s with parent_pid := ext.cur_pid }
    henv hfd htopo hfmm hdb
  obtain ⟨p, f, fd, c, a, cfg⟩ := s
  simp only at h0
  subst h0
  simp [hsaKmtOpenKFD, hifc, hbody]

theorem close_dec_eq (s : KState) (hc : 1 < s.kfd_open_count) :
    hsaKmtCloseKFD s =
      (.SUCCESS, { s with kfd_open_count := s.kfd_open_count - 1 }, []) := by
  obtain ⟨p, f, fd, c, a, cfg⟩ := s
  simp only at hc
  simp [hsaKmtCloseKFD, show (0:Int) < c by omega, show ¬ (c - 1 = 0) by omega]

theorem close_last_eq (s : KState) (h1 : s.kfd_open_count = 1)
    (h2 : s.kfd_fd ≠ 0) :
    hsaKmtCloseKFD s =
      (.SUCCESS, { s with kfd_open_count := 0, kfd_fd := 0 },
       lastCloseEvents) := by
  obtain ⟨p, f, fd, c, a, cfg⟩ := s
  simp only at h1 h2
  subst h1
  simp [hsaKmtCloseKFD, h2, lastCloseEvents]

theorem run_append (chipLast : Nat) (s : KState) (l1 l2 : List Op) :
    run chipLast s (l1 ++ l2) =
      ((run chipLast (run chipLast s l1).1 l2).1,
       (run chipLast s l1).2 ++ (run chipLast (run chipLast s l1).1 l2).2) := by
  induction l1 generalizing s with
  | nil => simp [run]
  | cons op ops ih => simp [run, ih]

theorem run_replicate_open (chipLast : Nat) (pid fdv : Int) (n : Nat)
    (k : Nat) (s : KState) (hc : 0 < s.kfd_open_count)
    (hf : s.hsakmt_forked = false) (hp : s.parent_pid = pid) :
    run chipLast s (List.replicate k (Op.openKFD (goodExt pid fdv n))) =
      ({ s with kfd_open_count := s.kfd_open_count + (k : Int) }, []) := by
  induction k generalizing s with
  | zero =>
    obtain ⟨p, f, fd, c, a, cfg⟩ := s
    simp [run]
  | succ m ih =>
    have hop := open_already_eq chipLast (goodExt pid fdv n) s hc hf hp
    have ih2 := ih { s with kfd_open_count := s.kfd_open_count + 1 }
      (by simp; omega) (by simpa using hf) (by simpa using hp)
    obtain ⟨p, f, fd, c, a, cfg⟩ := s
    simp only [List.replicate_succ, run, step, hop]
    rw [ih2]
    simp [Prod.mk.injEq, KState.mk.injEq]
    all_goals omega

theorem run_replicate_close (chipLast : Nat) (k : Nat) (s : KState)
    (hc : (k : Int) < s.kfd_open_count) :
    run chipLast s (List.replicate k Op.closeKFD) =
      ({ s with kfd_open_count := s.kfd_open_count - (k : Int) }, []) := by
  induction k generalizing s with
  | zero =>
    obtain ⟨p, f, fd, c, a, cfg⟩ := s
    simp [run]
  | succ m ih =>
    have hcl := close_dec_eq s (by push_cast at hc; omega)
    have ih2 := ih { s with kfd_open_count := s.kfd_open_count - 1 }
      (by simp; push_cast at hc; omega)
    obtain ⟨p, f, fd, c, a, cfg⟩ := s
    simp only [List.replicate_succ, run, step, hcl]
    rw [ih2]
    simp [Prod.mk.injEq, KState.mk.injEq]
    all_goals omega

/-! ### Claims -/

/-- C5: `hsaKmtCloseKFD` called with `kfd_open_count = 0` returns
`KERNEL_IO_CHANNEL_NOT_OPENED`, leaves the whole state unchanged and
invokes no collaborator (empty trace), so the device handle and all
subsystem state are untouched. -/
theorem C5_close_unopened_error (s : KState) (h : s.kfd_open_count = 0) :
    hsaKmtCloseKFD s = (.KERNEL_IO_CHANNEL_NOT_OPENED, s, []) := by
  obtain ⟨p, f, fd, c, a, cfg⟩ := s
  have h' : c = 0 := h
  subst h'
  simp [hsaKmtCloseKFD]

/-- Witness for C5 at the initial state. -/
theorem C5_close_unopened_error_witness :
    hsaKmtCloseKFD initState = (.KERNEL_IO_CHANNEL_NOT_OPENED, initState, []) :=
  C5_close_unopened_error initState rfl

/-- C7: a second `hsaKmtOpenKFD` before any close (`kfd_open_count > 0`, no
fork detected) just increments `kfd_open_count`, returns the distinguished
`KERNEL_ALREADY_OPENED` outcome, and invokes no collaborator at all: no
configuration load, no device open, no topology query, no subsystem init
(empty trace). -/
theorem C7_second_open_increments_only (chipLast : Nat) (ext : Ext) (s : KState)
    (hc : 0 < s.kfd_open_count) (hf : s.hsakmt_forked = false)
    (hp : s.parent_pid = ext.cur_pid) :
    hsaKmtOpenKFD chipLast ext s =
      (.KERNEL_ALREADY_OPENED,
       { s with kfd_open_count := s.kfd_open_count + 1 }, []) :=
  open_already_eq chipLast ext s hc hf hp

/-- Witness for C7 after one successful open. -/
theorem C7_second_open_increments_only_witness :
    hsaKmtOpenKFD 20 (goodExt 7 3 2)
        { initState with parent_pid := 7, kfd_open_count := 1 } =
      (.KERNEL_ALREADY_OPENED,
       { initState with parent_pid := 7, kfd_open_count := 2 }, []) := by
  have h := C7_second_open_increments_only 20 (goodExt 7 3 2)
    { initState with parent_pid := 7, kfd_open_count := 1 }
    (by decide) rfl rfl
  simpa using h

/-- C8: `is_forked_child` records the pid and returns false on the first
call ever (unset recorded pid, clear flag); afterwards it returns true
exactly when the flag is already set or the live pid mismatches the
recorded one; a true result latches the flag so every later call returns
true, until `clear_after_fork` clears both the flag and the recorded
pid. -/
theorem C8_fork_detection_latch :
    (∀ (pid : Int) (s : KState), s.hsakmt_forked = false → s.parent_pid = -1 →
      is_forked_child pid s = (false, { s with parent_pid := pid })) ∧
    (∀ (pid : Int) (s : KState), s.hsakmt_forked = true →
      is_forked_child pid s = (true, s)) ∧
    (∀ (pid : Int) (s : KState), s.hsakmt_forked = false → s.parent_pid ≠ -1 →
      s.parent_pid ≠ pid →
      is_forked_child pid s = (true, { s with hsakmt_forked := true })) ∧
    (∀ (pid : Int) (s : KState), s.hsakmt_forked = false → s.parent_pid ≠ -1 →
      s.parent_pid = pid → is_forked_child pid s = (false, s)) ∧
    (∀ (pid pid' : Int) (s : KState), (is_forked_child pid s).1 = true →
      (is_forked_child pid' (is_forked_child pid s).2).1 = true) ∧
    (∀ s : KState, (clear_after_fork s).1.hsakmt_forked = false ∧
      (clear_after_fork s).1.parent_pid = -1) := by
  refine ⟨?_, ?_, ?_, ?_, ?_, ?_⟩
  · intro pid s hf hp
    obtain ⟨p, f, fd, c, a, cfg⟩ := s
    have hf' : f = false := hf
    have hp' : p = -1 := hp
    subst hf'; subst hp'
    simp [is_forked_child]
  · intro pid s hf
    obtain ⟨p, f, fd, c, a, cfg⟩ := s
    have hf' : f = true := hf
    subst hf'
    simp [is_forked_child]
  · intro pid s hf hp hq
    obtain ⟨p, f, fd, c, a, cfg⟩ := s
    have hf' : f = false := hf
    subst hf'
    simp [is_forked_child, show ¬ (p = -1) from hp, show ¬ (p = pid) from hq]
  · intro pid s hf hp hq
    obtain ⟨p, f, fd, c, a, cfg⟩ := s
    have hf' : f = false := hf
    have hq' : p = pid := hq
    subst hf'
    simp [is_forked_child, show ¬ (p = -1) from hp, hq']
  · intro pid pid' s h
    obtain ⟨p, f, fd, c, a, cfg⟩ := s
    by_cases hf : f = true
    · subst hf; simp [is_forked_child]
    · have hf' : f = false := by simpa using hf
      subst hf'
      by_cases hp : p = -1
      · simp [is_forked_child, hp] at h
      · by_cases hq : p = pid
        · simp [is_forked_child, hp, hq] at h
        · simp [is_forked_child, hp, hq]
  · intro s
    obtain ⟨p, f, fd, c, a, cfg⟩ := s
    by_cases h : fd = 0 <;> simp [clear_after_fork, h]

/-- Witness for C8: first call records the pid; a set flag yields true. -/
theorem C8_fork_detection_latch_witness :
    is_forked_child 7 initState = (false, { initState with parent_pid := 7 }) ∧
    is_forked_child 7 { initState with hsakmt_forked := true } =
      (true, { initState with hsakmt_forked := true }) :=
  ⟨C8_fork_detection_latch.1 7 initState rfl rfl,
   C8_fork_detection_latch.2.1 7 { initState with hsakmt_forked := true } rfl⟩

/-- C1 (code-bug exhibit): during a first open with the doorbell stage
(stage 2 of the init chain) failing, the originating error is returned,
stage 1 (apertures) observes exactly one teardown, the failed stage none,
and the device handle is closed — but, contrary to the claim,
`kfd_open_count` is left at 1 (the failure labels of `hsaKmtOpenKFD` never
reset it), not restored to 0. -/
theorem C1_stage_failure_rollback_exhibit :
    (hsaKmtOpenKFD 20 extDoorbellFail initState).1 = .ERROR ∧
    (hsaKmtOpenKFD 20 extDoorbellFail initState).2.2 =
      [.init_vars_from_env, .dev_open 3, .init_page_size, .topology_query,
       .fmm_init_process_apertures 2, .init_process_doorbells 2,
       .fmm_destroy_process_apertures, .dev_close] ∧
    ((hsaKmtOpenKFD 20 extDoorbellFail initState).2.2).filterMap teardownStage =
      [Stage.apertures] ∧
    devPhysOpen (hsaKmtOpenKFD 20 extDoorbellFail initState).2.2 = false ∧
    (hsaKmtOpenKFD 20 extDoorbellFail initState).2.1.kfd_open_count = 1 :=
  ⟨rfl, rfl, rfl, rfl, rfl⟩

/-- C2 (code-bug exhibit): after an `hsaKmtOpenKFD` that failed at the
topology query, the state has `kfd_open_count = 1` while the device
connection is physically closed (the error path closed it), violating the
invariant `open_count = 0 ↔ handle invalid`; a follow-up open even takes
the already-opened branch (count 2) without reopening the device. -/
theorem C2_invariant_violated_exhibit :
    (hsaKmtOpenKFD 20 extTopoFail initState).1 = .ERROR ∧
    (hsaKmtOpenKFD 20 extTopoFail initState).2.1.kfd_open_count = 1 ∧
    devPhysOpen (hsaKmtOpenKFD 20 extTopoFail initState).2.2 = false ∧
    (run 20 initState
      [Op.openKFD extTopoFail, Op.openKFD (goodExt 7 3 2)]).1.kfd_open_count = 2 ∧
    devPhysOpen (run 20 initState
      [Op.openKFD extTopoFail, Op.openKFD (goodExt 7 3 2)]).2 = false :=
  ⟨rfl, rfl, rfl, rfl, rfl⟩

/-- C4: when `hsaKmtCloseKFD` drops `kfd_open_count` from 1 to 0, the
teardown chain runs as counters, debug memory, doorbells, apertures —
exactly the reverse of the init chain driven by a successful first open —
then the device handle is released (the trace ends with `dev_close` and
`kfd_fd` is zeroed), and the call returns success. -/
theorem C4_last_close_reverse_teardown (s : KState)
    (h1 : s.kfd_open_count = 1) (h2 : s.kfd_fd ≠ 0) :
    hsaKmtCloseKFD s =
      (.SUCCESS, { s with kfd_open_count := 0, kfd_fd := 0 }, lastCloseEvents) ∧
    lastCloseEvents.filterMap teardownStage = initChainOrder.reverse ∧
    (∀ (chipLast : Nat) (pid fdv : Int) (n : Nat), 0 < fdv →
      ((hsaKmtOpenKFD chipLast (goodExt pid fdv n) initState).2.2).filterMap
        initStage = initChainOrder) ∧
    lastCloseEvents.getLast? = some Event.dev_close := by
  refine ⟨close_last_eq s h1 h2, by decide, ?_, by decide⟩
  intro chipLast pid fdv n hfd
  rw [open_first_eq chipLast (goodExt pid fdv n) initState rfl hfd rfl rfl rfl
    rfl rfl (Or.inl rfl)]
  simp [firstOpenEvents, initStage, initChainOrder]

/-- Witness for C4 at a state with one outstanding open. -/
theorem C4_last_close_reverse_teardown_witness :
    hsaKmtCloseKFD { initState with kfd_open_count := 1, kfd_fd := 3 } =
      (.SUCCESS, initState, lastCloseEvents) := by
  have h := C4_last_close_reverse_teardown
    { initState with kfd_open_count := 1, kfd_fd := 3 } rfl (by decide)
  simpa using h.1

/-- C6 counterexample: the five-field string `"10.1.0 1 Navi10"` makes
`init_vars_from_env` fail, yet the stored asic name is overwritten from
`"Old"` to `"Navi10"` — `sscanf` writes the global `force_asic_name`
buffer before the conversion count is checked, so the prior configuration
is not left entirely untouched. -/
theorem C6_name_clobbered_on_failed_parse :
    (init_vars_from_env 20 (envForce "10.1.0 1 Navi10") cfgOld).1 = .ERROR ∧
    (init_vars_from_env 20 (envForce "10.1.0 1 Navi10") cfgOld).2.force_asic_name
      = "Navi10" ∧
    cfgOld.force_asic_name = "Old" :=
  ⟨rfl, rfl, rfl⟩

/-- C6 (amended): `"10.1.0 1 Navi10 14"` parses into major 10, minor 1,
step 0, dgpu 1, family 14, asic name `"Navi10"` and installs the override;
a five-field string, a family at/above `CHIP_LAST`, or a numeric field
beyond its bound fails with an error and leaves the override uninstalled —
`force_asic` and `force_asic_entry` are untouched — although the asic-name
buffer itself may have been overwritten by the partial parse. -/
theorem C6_forced_asic_parse_amended (cfg : Config) (cl cl' : Nat)
    (h14 : 14 < cl) (hle : cl' ≤ 14) :
    init_vars_from_env cl (envForce "10.1.0 1 Navi10 14") cfg =
      (.SUCCESS,
       { cfg with
         hsakmt_debug_level := -1
         force_asic_name := "Navi10"
         force_asic_entry := ⟨10, 1, 0, 1, 14⟩
         force_asic := 1 }) ∧
    ((init_vars_from_env cl (envForce "10.1.0 1 Navi10") cfg).1 = .ERROR ∧
     (init_vars_from_env cl (envForce "10.1.0 1 Navi10") cfg).2.force_asic =
       cfg.force_asic ∧
     (init_vars_from_env cl (envForce "10.1.0 1 Navi10") cfg).2.force_asic_entry =
       cfg.force_asic_entry) ∧
    ((init_vars_from_env cl' (envForce "10.1.0 1 Navi10 14") cfg).1 = .ERROR ∧
     (init_vars_from_env cl' (envForce "10.1.0 1 Navi10 14") cfg).2.force_asic =
       cfg.force_asic ∧
     (init_vars_from_env cl' (envForce "10.1.0 1 Navi10 14") cfg).2.force_asic_entry =
       cfg.force_asic_entry) ∧
    ((init_vars_from_env cl (envForce "64.1.0 1 Navi10 14") cfg).1 = .ERROR ∧
     (init_vars_from_env cl (envForce "64.1.0 1 Navi10 14") cfg).2.force_asic =
       cfg.force_asic ∧
     (init_vars_from_env cl (envForce "64.1.0 1 Navi10 14") cfg).2.force_asic_entry =
       cfg.force_asic_entry) := by
  have hscan6 : scanForceAsic "10.1.0 1 Navi10 14" =
      { nmatched := 6, major := 10, minor := 1, step := 0, dgpu := 1,
        name := some "Navi10", family := 14 } := by rfl
  have hscan5 : scanForceAsic "10.1.0 1 Navi10" =
      { nmatched := 5, major := 10, minor := 1, step := 0, dgpu := 1,
        name := some "Navi10", family := 0 } := by rfl
  have hscan64 : scanForceAsic "64.1.0 1 Navi10 14" =
      { nmatched := 6, major := 64, minor := 1, step := 0, dgpu := 1,
        name := some "Navi10", family := 14 } := by rfl
  have hcl : ¬ (cl ≤ 14) := by omega
  refine ⟨?_, ?_, ?_, ?_⟩
  · simp [init_vars_from_env, envForce, hscan6, hcl, HSAKMT_DEBUG_LEVEL_DEFAULT]
  · simp [init_vars_from_env, envForce, hscan5, HSAKMT_DEBUG_LEVEL_DEFAULT]
  · simp [init_vars_from_env, envForce, hscan6, hle, HSAKMT_DEBUG_LEVEL_DEFAULT]
  · simp [init_vars_from_env, envForce, hscan64, HSAKMT_DEBUG_LEVEL_DEFAULT]

/-- Witness for C6 (amended) at `CHIP_LAST` values 20 and 14. -/
theorem C6_forced_asic_parse_amended_witness :
    (init_vars_from_env 20 (envForce "10.1.0 1 Navi10 14") initConfig).1 =
      .SUCCESS ∧
    (init_vars_from_env 14 (envForce "10.1.0 1 Navi10 14") initConfig).1 =
      .ERROR := by
  have h := C6_forced_asic_parse_amended initConfig 20 14 (by omega) (by omega)
  exact ⟨by rw [h.1], h.2.2.1.1⟩

/-- C9: once a fork has been detected — the forked flag is set or the live
pid mismatches the recorded one — the next `hsaKmtOpenKFD`, whatever the
pre-fork `kfd_open_count`, first performs the full reset (tears down all
tracked subsystem state, closes the locally recorded handle, zeroes the
refcount, clears the flag and the recorded pid) and then runs the complete
first-open sequence against a freshly queried node count. -/
theorem C9_open_after_fork_resets_and_reinits (chipLast : Nat) (ext : Ext)
    (s : KState) (henv : ext.env = envNone) (hfd : 0 < ext.dev_fd)
    (htopo : ext.topo_status = .SUCCESS) (hfmm : ext.fmm_status = .SUCCESS)
    (hdb : ext.doorbells_status = .SUCCESS)
    (hdet : s.hsakmt_forked = true ∨
      (s.parent_pid ≠ -1 ∧ s.parent_pid ≠ ext.cur_pid)) :
    hsaKmtOpenKFD chipLast ext s =
      (.SUCCESS,
       { parent_pid := -1
         hsakmt_forked := false
         kfd_fd := ext.dev_fd
         kfd_open_count := 1
         atfork_installed := true
         cfg := { s.cfg with hsakmt_debug_level := -1 } },
       clearEvents s.kfd_fd ++ firstOpenEvents ext.dev_fd ext.numNodes) := by
  have hne : ext.dev_fd ≠ -1 := by omega
  obtain ⟨p, f, fd, c, a, cfg⟩ := s
  by_cases hflag : f = true
  · subst hflag
    by_cases hfd0 : fd = 0 <;> by_cases ha : a <;>
      simp [hsaKmtOpenKFD, is_forked_child, clear_after_fork, openFirstPath,
        init_vars_from_env, henv, envNone, firstOpenEvents, clearEvents,
        htopo, hfmm, hdb, hne, hfd0, ha, HSAKMT_DEBUG_LEVEL_DEFAULT]
  · have hf' : f = false := by simpa using hflag
    subst hf'
    have hmm : p ≠ -1 ∧ p ≠ ext.cur_pid := by
      rcases hdet with h | h
      · exact absurd h (by simp)
      · exact h
    by_cases hfd0 : fd = 0 <;> by_cases ha : a <;>
      simp [hsaKmtOpenKFD, is_forked_child, clear_after_fork, openFirstPath,
        init_vars_from_env, henv, envNone, firstOpenEvents, clearEvents,
        htopo, hfmm, hdb, hne, hfd0, ha, HSAKMT_DEBUG_LEVEL_DEFAULT,
        show ¬ (p = -1) from hmm.1, show ¬ (p = ext.cur_pid) from hmm.2]

/-- Witness for C9 with the forked flag set and two outstanding opens. -/
theorem C9_open_after_fork_resets_and_reinits_witness :
    hsaKmtOpenKFD 20 (goodExt 9 3 2)
        { parent_pid := 7, hsakmt_forked := true, kfd_fd := 4,
          kfd_open_count := 2, atfork_installed := true, cfg := initConfig } =
      (.SUCCESS,
       { parent_pid := -1, hsakmt_forked := false, kfd_fd := 3,
         kfd_open_count := 1, atfork_installed := true,
         cfg := { initConfig with hsakmt_debug_level := -1 } },
       clearEvents 4 ++ firstOpenEvents 3 2) := by
  have h := C9_open_after_fork_resets_and_reinits 20 (goodExt 9 3 2)
    { parent_pid := 7, hsakmt_forked := true, kfd_fd := 4,
      kfd_open_count := 2, atfork_installed := true, cfg := initConfig }
    rfl (by decide) rfl rfl rfl (Or.inl rfl)
  simpa using h

/-- C10: a failing debug-memory init stage or performance-counter init
stage never fails a first open: with those two statuses unconstrained,
`hsaKmtOpenKFD` still returns success, leaves `kfd_open_count` at 1, runs
every remaining stage (the trace is the full first-open trace) and performs
no teardown (no rollback). -/
theorem C10_debug_counter_failures_ignored (chipLast : Nat) (ext : Ext)
    (s : KState) (dbg ctr : HSAKMT_STATUS)
    (henv : ext.env = envNone) (hfd : 0 < ext.dev_fd)
    (htopo : ext.topo_status = .SUCCESS) (hfmm : ext.fmm_status = .SUCCESS)
    (hdb : ext.doorbells_status = .SUCCESS)
    (h0 : s.kfd_open_count = 0) (hf : s.hsakmt_forked = false)
    (hp : s.parent_pid = -1 ∨ s.parent_pid = ext.cur_pid) :
    (hsaKmtOpenKFD chipLast
      { ext with debug_status := dbg, counters_status := ctr } s).1 = .SUCCESS ∧
    (hsaKmtOpenKFD chipLast
      { ext with debug_status := dbg, counters_status := ctr } s).2.1.kfd_open_count
      = 1 ∧
    (hsaKmtOpenKFD chipLast
      { ext with debug_status := dbg, counters_status := ctr } s).2.2 =
      firstOpenEvents ext.dev_fd ext.numNodes ∧
    ((hsaKmtOpenKFD chipLast
      { ext with debug_status := dbg, counters_status := ctr } s).2.2).filterMap
      teardownStage = [] := by
  have h := open_first_eq chipLast
    { ext with debug_status := dbg, counters_status := ctr } s
    henv hfd htopo hfmm hdb h0 hf hp
  rw [h]
  refine ⟨rfl, rfl, rfl, ?_⟩
  simp [firstOpenEvents, teardownStage]

/-- Witness for C10 with both ignored stages failing. -/
theorem C10_debug_counter_failures_ignored_witness :
    (hsaKmtOpenKFD 20
      { goodExt 7 3 2 with debug_status := .ERROR, counters_status := .ERROR }
      initState).1 = .SUCCESS ∧
    (hsaKmtOpenKFD 20
      { goodExt 7 3 2 with debug_status := .ERROR, counters_status := .ERROR }
      initState).2.1.kfd_open_count = 1 ∧
    (hsaKmtOpenKFD 20
      { goodExt 7 3 2 with debug_status := .ERROR, counters_status := .ERROR }
      initState).2.2 = firstOpenEvents 3 2 ∧
    ((hsaKmtOpenKFD 20
      { goodExt 7 3 2 with debug_status := .ERROR, counters_status := .ERROR }
      initState).2.2).filterMap teardownStage = [] :=
  C10_debug_counter_failures_ignored 20 (goodExt 7 3 2) initState .ERROR .ERROR
    rfl (by decide) rfl rfl rfl rfl rfl (Or.inl rfl)

theorem run_replicate_close_all (chipLast : Nat) (k : Nat) (s : KState)
    (hc : s.kfd_open_count = (k : Int) + 1) (hfd : s.kfd_fd ≠ 0) :
    run chipLast s (List.replicate (k + 1) Op.closeKFD) =
      ({ s with kfd_open_count := 0, kfd_fd := 0 }, lastCloseEvents) := by
  induction k generalizing s with
  | zero =>
    have hlast := close_last_eq s (by rw [hc]; norm_num) hfd
    obtain ⟨p, f, fd, c, a, cfg⟩ := s
    simp only [List.replicate_succ, List.replicate_zero, run, step, hlast]
    simp
  | succ m ih =>
    obtain ⟨p, f, fd, c, a, cfg⟩ := s
    have hc0 : c = ((m + 1 : Nat) : Int) + 1 := hc
    have hfd0 : fd ≠ 0 := hfd
    have hdec : hsaKmtCloseKFD ⟨p, f, fd, c, a, cfg⟩ =
        (.SUCCESS, (⟨p, f, fd, c - 1, a, cfg⟩ : KState), []) :=
      close_dec_eq ⟨p, f, fd, c, a, cfg⟩
        (by show (1 : Int) < c; push_cast at hc0; omega)
    have ih2 := ih (⟨p, f, fd, c - 1, a, cfg⟩ : KState)
      (by show c - 1 = (m : Int) + 1; push_cast at hc0; omega)
      (by show fd ≠ 0; exact hfd0)
    have key : run chipLast (⟨p, f, fd, c, a, cfg⟩ : KState)
        (List.replicate (m + 1 + 1) Op.closeKFD) =
        ((run chipLast (⟨p, f, fd, c - 1, a, cfg⟩ : KState)
            (List.replicate (m + 1) Op.closeKFD)).1,
         [] ++ (run chipLast (⟨p, f, fd, c - 1, a, cfg⟩ : KState)
            (List.replicate (m + 1) Op.closeKFD)).2) := by
      rw [List.replicate_succ]
      simp only [run, step, hdec]
    rw [key, ih2]
    simp [lastCloseEvents]

theorem run_opens_closes_mid (chipLast : Nat) (pid fdv : Int) (n : Nat)
    (hfd : fdv ≠ 0) (M : Nat) (a : Bool) (cfg : Config) :
    run chipLast (⟨pid, false, fdv, 1, a, cfg⟩ : KState)
      (List.replicate M (Op.openKFD (goodExt pid fdv n)) ++
       List.replicate (M + 1) Op.closeKFD) =
      ((⟨pid, false, 0, 0, a, cfg⟩ : KState), lastCloseEvents) := by
  have ho := run_replicate_open chipLast pid fdv n M
    (⟨pid, false, fdv, 1, a, cfg⟩ : KState) (by norm_num) rfl rfl
  have e1 : run chipLast (⟨pid, false, fdv, 1, a, cfg⟩ : KState)
      (List.replicate M (Op.openKFD (goodExt pid fdv n)) ++
       List.replicate (M + 1) Op.closeKFD) =
      ((run chipLast (⟨pid, false, fdv, 1 + (M : Int), a, cfg⟩ : KState)
          (List.replicate (M + 1) Op.closeKFD)).1,
       [] ++ (run chipLast (⟨pid, false, fdv, 1 + (M : Int), a, cfg⟩ : KState)
          (List.replicate (M + 1) Op.closeKFD)).2) := by
    rw [run_append, ho]
  rw [e1, run_replicate_close_all chipLast M
    (⟨pid, false, fdv, 1 + (M : Int), a, cfg⟩ : KState)
    (by show (1 : Int) + (M : Int) = (M : Int) + 1; omega)
    (by show fdv ≠ 0; exact hfd)]
  simp

/-- C3: for every `N ≥ 1`, a sequence of `N` `open()` calls with a
succeeding external world followed by `N` `close()` calls on one thread
(no fork) opens the underlying device exactly once and closes it exactly
once, and ends with zero outstanding opens. -/
theorem C3_device_opened_closed_once (chipLast : Nat) (pid fdv : Int)
    (n N : Nat) (hN : 1 ≤ N) (hfd : 0 < fdv) :
    countDevOpens (run chipLast initState
      (List.replicate N (Op.openKFD (goodExt pid fdv n)) ++
       List.replicate N Op.closeKFD)).2 = 1 ∧
    countDevCloses (run chipLast initState
      (List.replicate N (Op.openKFD (goodExt pid fdv n)) ++
       List.replicate N Op.closeKFD)).2 = 1 ∧
    (run chipLast initState
      (List.replicate N (Op.openKFD (goodExt pid fdv n)) ++
       List.replicate N Op.closeKFD)).1.kfd_open_count = 0 := by
  obtain ⟨M, rfl⟩ : ∃ M, N = M + 1 := ⟨N - 1, by omega⟩
  have hop := open_first_eq chipLast (goodExt pid fdv n) initState rfl hfd
    rfl rfl rfl rfl rfl (Or.inl rfl)
  have hstep : step chipLast initState (Op.openKFD (goodExt pid fdv n)) =
      ((⟨pid, false, fdv, 1, true, ⟨-1, 0, "", ⟨0, 0, 0, 0, 0⟩, 0⟩⟩ : KState),
       firstOpenEvents fdv n) := by
    simp only [step, hop]
    rfl
  have emain : run chipLast initState
      (Op.openKFD (goodExt pid fdv n) ::
       (List.replicate M (Op.openKFD (goodExt pid fdv n)) ++
        List.replicate (M + 1) Op.closeKFD)) =
      ((run chipLast
          (⟨pid, false, fdv, 1, true, ⟨-1, 0, "", ⟨0, 0, 0, 0, 0⟩, 0⟩⟩ : KState)
          (List.replicate M (Op.openKFD (goodExt pid fdv n)) ++
           List.replicate (M + 1) Op.closeKFD)).1,
       firstOpenEvents fdv n ++
         (run chipLast
           (⟨pid, false, fdv, 1, true, ⟨-1, 0, "", ⟨0, 0, 0, 0, 0⟩, 0⟩⟩ : KState)
           (List.replicate M (Op.openKFD (goodExt pid fdv n)) ++
            List.replicate (M + 1) Op.closeKFD)).2) := by
    simp only [run, hstep]
  rw [List.replicate_succ, List.cons_append, emain,
    run_opens_closes_mid chipLast pid fdv n (by omega) M true
      ⟨-1, 0, "", ⟨0, 0, 0, 0, 0⟩, 0⟩]
  refine ⟨?_, ?_, ?_⟩
  · simp [countDevOpens, firstOpenEvents, lastCloseEvents,
      show (fdv != -1) = true from by simp [bne_iff_ne]; omega]
  · simp [countDevCloses, firstOpenEvents, lastCloseEvents]
  · simp

/-- Witness for C3 at two opens and two closes. -/
theorem C3_device_opened_closed_once_witness :
    countDevOpens (run 20 initState
      (List.replicate 2 (Op.openKFD (goodExt 7 3 2)) ++
       List.replicate 2 Op.closeKFD)).2 = 1 ∧
    countDevCloses (run 20 initState
      (List.replicate 2 (Op.openKFD (goodExt 7 3 2)) ++
       List.replicate 2 Op.closeKFD)).2 = 1 ∧
    (run 20 initState
      (List.replicate 2 (Op.openKFD (goodExt 7 3 2)) ++
       List.replicate 2 Op.closeKFD)).1.kfd_open_count = 0 :=
  C3_device_opened_closed_once 20 7 3 2 2 (by omega) (by omega)

end ROCT
